import Mathlib

/-!
Shallow embedding of MongoCatalogApp (src/app.py and src/services/products.py):
a FastAPI service over a single MongoDB `products` collection.

The store is modelled as an ordered list of BSON-like documents (insertion
order is the collection scan order); `find_one` / `update_one` / `delete_one`
act on the first matching document, mirroring MongoDB's single-document
operations.  Field update (`$set`), array append (`$push`), the positional
operator (`$`), and arrayFilters (`$[rev]`) are modelled per their MongoDB
semantics as used by the service functions.
-/

namespace MongoCatalog

/-- BSON-like values stored in the products collection.  All numeric BSON
types are collapsed into one rational constructor, since MongoDB compares
numbers by value across types. -/
inductive Value where
  | str (s : String)
  | num (q : Rat)
  | bool (b : Bool)
  | null
  | arr (vs : List Value)
  | doc (fields : List (String × Value))

mutual

/-- MongoDB equality on values (as used by equality query predicates). -/
def Value.beq : Value → Value → Bool
  | .str a, .str b => a == b
  | .num a, .num b => a == b
  | .bool a, .bool b => a == b
  | .null, .null => true
  | .arr as, .arr bs => Value.beqArr as bs
  | .doc fs, .doc gs => Value.beqDoc fs gs
  | _, _ => false

def Value.beqArr : List Value → List Value → Bool
  | [], [] => true
  | v :: vs, w :: ws => Value.beq v w && Value.beqArr vs ws
  | _, _ => false

def Value.beqDoc : List (String × Value) → List (String × Value) → Bool
  | [], [] => true
  | (k, v) :: fs, (l, w) :: gs => k == l && Value.beq v w && Value.beqDoc fs gs
  | _, _ => false

end

/-- A BSON document: an ordered association list of fields. -/
abbrev Doc := List (String × Value)

/-- Read a top-level field (first occurrence; MongoDB documents have unique
field names). -/
def getField : Doc → String → Option Value
  | [], _ => none
  | (k, v) :: rest, key => if k = key then some v else getField rest key

/-- MongoDB `$set` on one top-level field: replace it in place when present,
append it at the end when absent. -/
def setField : Doc → String → Value → Doc
  | [], key, v => [(key, v)]
  | (k, w) :: rest, key, v =>
    if k = key then (key, v) :: rest else (k, w) :: setField rest key v

/-- Apply a `$set` update document field by field. -/
def setFields : Doc → List (String × Value) → Doc
  | d, [] => d
  | d, kv :: rest => setFields (setField d kv.1 kv.2) rest

/-- The `{"_id": 0}` projection used by every read in services/products.py. -/
def excludeId (d : Doc) : Doc :=
  d.filter (fun kv => kv.1 != "_id")

/-- Equality query predicate `{k: v}` on a top-level scalar field: the field
is present and equal to `v`.  (The array-traversal part of MongoDB dotted
queries is modelled separately by `arrayFieldHas`.) -/
def matchesEq (d : Doc) (k : String) (v : Value) : Bool :=
  match getField d k with
  | some w => Value.beq w v
  | none => false

/-- The query `{"sku": v}` used by every service function. -/
def qSku (skuV : Value) (d : Doc) : Bool :=
  matchesEq d "sku" skuV

/-- Whether an array element (an embedded document) has field `k` equal to
`v` — the element-level reading of a dotted query such as
`{"reviews.review_id": rid}`. -/
def elemHasField (k : String) (v : Value) : Value → Bool
  | .doc rd => matchesEq rd k v
  | _ => false

/-- MongoDB dotted query `{arrKey.k: v}` on an array field: some element of
the array has field `k` equal to `v`. -/
def arrayFieldHas (d : Doc) (arrKey k : String) (v : Value) : Bool :=
  match getField d arrKey with
  | some (.arr vs) => vs.any (elemHasField k v)
  | _ => false

/-- The compound query `{"sku": sku, "reviews.review_id": rid}` of
`update_review_positional` (services/products.py line 103). -/
def qPositional (sku rid : String) (d : Doc) : Bool :=
  qSku (.str sku) d && arrayFieldHas d "reviews" "review_id" (.str rid)

/-- Python truthiness of a pymongo `find_one` result: `None` and the empty
document `{}` are falsy (`if not doc:` in services/products.py). -/
def truthy : Option Doc → Bool
  | none => false
  | some d => !d.isEmpty

/-- `find_one(query)`: the first document of the collection scan matching the
predicate. -/
def findOne (p : Doc → Bool) : List Doc → Option Doc
  | [] => none
  | d :: ds => if p d then some d else findOne p ds

/-- `update_one(query, upd)`: apply `f` to the first matching document;
returns the new collection and `matched_count` (0 or 1). -/
def updateFirst (p : Doc → Bool) (f : Doc → Doc) : List Doc → List Doc × Nat
  | [] => ([], 0)
  | d :: ds =>
    if p d then (f d :: ds, 1)
    else
      let r := updateFirst p f ds
      (d :: r.1, r.2)

/-- `delete_one(query)`: remove the first matching document; returns the new
collection and `deleted_count` (0 or 1). -/
def deleteFirst (p : Doc → Bool) : List Doc → List Doc × Nat
  | [] => ([], 0)
  | d :: ds =>
    if p d then (ds, 1)
    else
      let r := deleteFirst p ds
      (d :: r.1, r.2)

/-- The products collection plus the driver's ObjectId generator state
(`insert_one` stamps a fresh `_id` on each inserted document). -/
structure Store where
  docs : List Doc
  nextId : Nat

/-- Error taxonomy of services/products.py, carried by `HTTPException`. -/
inductive ApiError where
  | notFound (sku : String)
  | conflict
  | internalError
deriving DecidableEq

/-- HTTP status code attached to each `HTTPException` raise. -/
def ApiError.statusCode : ApiError → Nat
  | .notFound _ => 404
  | .conflict => 409
  | .internalError => 500

-- ================================================================
-- services/products.py
-- ================================================================

/-- services/products.py `create_product` (lines 26-41): reject when a
document with the same sku already exists (409), otherwise insert (the
driver stamping a fresh `_id`) and return the re-read document without
`_id`.  The driver-generated `inserted_id` is always present here, so the
500 branch (see `create_product_flow`) never fires in this deterministic
model. -/
def create_product (st : Store) (product_data : Doc) : Except ApiError (Option Doc) × Store :=
  let skuV := (getField product_data "sku").getD .null
  if truthy (findOne (qSku skuV) st.docs) then
    (.error .conflict, st)
  else
    let st' : Store := ⟨st.docs ++ [setField product_data "_id" (.num st.nextId)], st.nextId + 1⟩
    (.ok ((findOne (qSku skuV) st'.docs).map excludeId), st')

/-- services/products.py `get_product` (lines 44-52): `find_one` with the
`_id` excluded, 404 when the (projected) result is falsy. -/
def get_product (st : Store) (sku : String) : Except ApiError Doc :=
  let doc := (findOne (qSku (.str sku)) st.docs).map excludeId
  match doc with
  | some d => if d.isEmpty then .error (.notFound sku) else .ok d
  | none => .error (.notFound sku)

/-- services/products.py `update_product` (lines 64-72): `$set` of the given
fields on the document matching the sku; 404 when `matched_count == 0`,
otherwise return the re-read document without `_id`. -/
def update_product (st : Store) (sku : String) (update_data : List (String × Value)) :
    Except ApiError (Option Doc) × Store :=
  let r := updateFirst (qSku (.str sku)) (fun d => setFields d update_data) st.docs
  let st' : Store := ⟨r.1, st.nextId⟩
  if r.2 = 0 then (.error (.notFound sku), st')
  else (.ok ((findOne (qSku (.str sku)) r.1).map excludeId), st')

/-- services/products.py `delete_product` (lines 75-83): `delete_one` by sku,
404 when `deleted_count == 0`. -/
def delete_product (st : Store) (sku : String) : Except ApiError Unit × Store :=
  let r := deleteFirst (qSku (.str sku)) st.docs
  let st' : Store := ⟨r.1, st.nextId⟩
  if r.2 = 0 then (.error (.notFound sku), st')
  else (.ok (), st')

/-- MongoDB `$push` on one field: append to the array, creating a singleton
array when the field is absent (as for a missing `reviews` field). -/
def applyPush (d : Doc) (k : String) (v : Value) : Doc :=
  match getField d k with
  | some (.arr vs) => setField d k (.arr (vs ++ [v]))
  | _ => setField d k (.arr [v])

/-- services/products.py `add_review` (lines 85-93): `$push` the review onto
`reviews` of the document matching the sku; 404 when `matched_count == 0`. -/
def add_review (st : Store) (sku : String) (review_data : Doc) :
    Except ApiError (Option Doc) × Store :=
  let r := updateFirst (qSku (.str sku)) (fun d => applyPush d "reviews" (.doc review_data)) st.docs
  let st' : Store := ⟨r.1, st.nextId⟩
  if r.2 = 0 then (.error (.notFound sku), st')
  else (.ok ((findOne (qSku (.str sku)) r.1).map excludeId), st')

/-- Merge a `$set` update document into an array element (an embedded review
document). -/
def setDocFields (upd : List (String × Value)) : Value → Value
  | .doc rd => .doc (setFields rd upd)
  | v => v

/-- Update the first array element satisfying `p` (the MongoDB positional
operator `$`: the first element matching the query's array condition). -/
def updateFirstElem (p : Value → Bool) (f : Value → Value) : List Value → List Value
  | [] => []
  | v :: vs => if p v then f v :: vs else v :: updateFirstElem p f vs

/-- The update `{"$set": {"reviews.$.k": v, ...}}` of
`update_review_positional`: merge the fields into the first review whose
`review_id` equals `rid`. -/
def applyPositionalSet (rid : String) (upd : List (String × Value)) (d : Doc) : Doc :=
  match getField d "reviews" with
  | some (.arr vs) =>
      setField d "reviews"
        (.arr (updateFirstElem (elemHasField "review_id" (.str rid)) (setDocFields upd) vs))
  | _ => d

/-- services/products.py `update_review_positional` (lines 95-110):
`update_one` with the compound query `{"sku": sku, "reviews.review_id": rid}`
and a positional `$set`; 404 when `matched_count == 0`, otherwise return the
re-read document (queried by sku alone) without `_id`. -/
def update_review_positional (st : Store) (sku rid : String)
    (update_data : List (String × Value)) : Except ApiError (Option Doc) × Store :=
  let r := updateFirst (qPositional sku rid) (applyPositionalSet rid update_data) st.docs
  let st' : Store := ⟨r.1, st.nextId⟩
  if r.2 = 0 then (.error (.notFound sku), st')
  else (.ok ((findOne (qSku (.str sku)) r.1).map excludeId), st')

/-- An arrayFilters predicate `{rev.k1: v1, rev.k2: v2, ...}` on an embedded
review document: every criterion field is present and equal. -/
def matchesAll (crit : List (String × Value)) (rd : Doc) : Bool :=
  crit.all (fun kv => matchesEq rd kv.1 kv.2)

/-- ArrayFilters predicate lifted to an array element. -/
def elemMatchesAll (crit : List (String × Value)) : Value → Bool
  | .doc rd => matchesAll crit rd
  | _ => false

/-- The update `{"$set": {"reviews.$[rev].k": v, ...}}` with
`arrayFilters=[{rev.c: w, ...}]`: merge the fields into every review
satisfying all of the criteria. -/
def applyArrayFilterSet (crit upd : List (String × Value)) (d : Doc) : Doc :=
  match getField d "reviews" with
  | some (.arr vs) =>
      setField d "reviews"
        (.arr (vs.map (fun v => if elemMatchesAll crit v then setDocFields upd v else v)))
  | _ => d

/-- services/products.py `update_review_array_filters` (lines 114-132):
`update_one` querying by sku alone, setting the update fields on every
review matching the arrayFilters criteria; 404 when `matched_count == 0`
(i.e. only when no document has the sku). -/
def update_review_array_filters (st : Store) (sku : String)
    (filter_criteria new_data : List (String × Value)) :
    Except ApiError (Option Doc) × Store :=
  let r := updateFirst (qSku (.str sku)) (applyArrayFilterSet filter_criteria new_data) st.docs
  let st' : Store := ⟨r.1, st.nextId⟩
  if r.2 = 0 then (.error (.notFound sku), st')
  else (.ok ((findOne (qSku (.str sku)) r.1).map excludeId), st')

/-- Control-flow skeleton of services/products.py `create_product`
(lines 26-41) with the three driver-call results as explicit inputs: the
`find_one` duplicate pre-check, the `inserted_id` of the `insert_one`
result, and the final `find_one` re-read (already `_id`-projected).  The
function branches exactly as the source does: 409 when the pre-check is
truthy, 500 when `result.inserted_id` is falsy, and otherwise it returns the
re-read document as-is (even when that re-read finds nothing). -/
def create_product_flow (preCheck : Option Doc) (insertedId : Option Nat)
    (postFind : Option Doc) : Except ApiError (Option Doc) :=
  if truthy preCheck then .error .conflict
  else if insertedId.isNone then .error .internalError
  else .ok postFind

-- ================================================================
-- app.py: request bodies and routing
-- ================================================================

/-- Test for the JSON null value. -/
def Value.isNull : Value → Bool
  | .null => true
  | _ => false

/-- app.py `ProductUpdate` (lines 69-73): the pydantic-validated body of
`PATCH /products/{sku}`.  All three fields are `Optional[...] = None`, and
pydantic maps an explicitly-null JSON field and an absent field both to
`None`. -/
structure ProductUpdate where
  name : Option String
  price : Option Rat
  category : Option String

/-- Pydantic validation of one `Optional[str]` field: absent or null gives
`None`, a string gives the string, any other value is a validation error. -/
def parseOptStr (body : Doc) (k : String) : Option (Option String) :=
  match getField body k with
  | none => some none
  | some .null => some none
  | some (.str s) => some (some s)
  | some _ => none

/-- Pydantic validation of the `Optional[condecimal(ge=0, max_digits=10,
decimal_places=2)]` price field: absent or null gives `None`, a non-negative
number with at most two decimal places gives the number; other values are
validation errors (pydantic string-to-decimal coercion is not modelled). -/
def parseOptPrice (body : Doc) : Option (Option Rat) :=
  match getField body "price" with
  | none => some none
  | some .null => some none
  | some (.num q) => if 0 ≤ q ∧ (q * 100).den = 1 then some (some q) else none
  | some _ => none

/-- Pydantic validation of a raw JSON body against `ProductUpdate`; extra
body fields are ignored (the pydantic default). -/
def parseProductUpdate (body : Doc) : Option ProductUpdate :=
  match parseOptStr body "name", parseOptPrice body, parseOptStr body "category" with
  | some n, some p, some c => some ⟨n, p, c⟩
  | _, _, _ => none

/-- `body.model_dump()` of a `ProductUpdate`: every declared field appears,
unset ones as null. -/
def ProductUpdate.model_dump (b : ProductUpdate) : List (String × Value) :=
  [("name", (b.name.map Value.str).getD .null),
   ("price", (b.price.map Value.num).getD .null),
   ("category", (b.category.map Value.str).getD .null)]

/-- app.py line 138: `{k: v for k, v in body.model_dump().items() if v is
not None}` — the update dictionary passed on to the service. -/
def appUpdateData (b : ProductUpdate) : List (String × Value) :=
  b.model_dump.filter (fun kv => !kv.2.isNull)

/-- app.py `update_product` endpoint (lines 131-139): drop the `None` fields
from the dumped body and delegate to the service update. -/
def app_update_product (st : Store) (sku : String) (b : ProductUpdate) :
    Except ApiError (Option Doc) × Store :=
  update_product st sku (appUpdateData b)

/-- Remove a key from a JSON object (used to compare a body carrying an
explicit null against the same body with the field absent). -/
def eraseKey (k : String) (body : Doc) : Doc :=
  body.filter (fun kv => kv.1 != k)

/-- One segment of a route path template: a literal or a `{param}`. -/
inductive Seg where
  | lit (s : String)
  | param (name : String)

/-- The handler functions of app.py, one per route declaration. -/
inductive Handler where
  | healthCheck
  | listProducts
  | getProductRoute
  | createProductRoute
  | updateProductRoute
  | deleteProductRoute
  | addReviewRoute
  | updateReviewPositionalRoute
  | patchReviewWithArrayfilterRoute
deriving DecidableEq

/-- A registered route: HTTP method, path template, handler. -/
structure Route where
  method : String
  path : List Seg
  handler : Handler

/-- The routes of app.py in declaration order (lines 89-174).  Starlette
keeps routes in registration order. -/
def appRoutes : List Route :=
  [⟨"GET", [.lit "health"], .healthCheck⟩,
   ⟨"GET", [.lit "products"], .listProducts⟩,
   ⟨"GET", [.lit "products", .param "sku"], .getProductRoute⟩,
   ⟨"POST", [.lit "products"], .createProductRoute⟩,
   ⟨"PATCH", [.lit "products", .param "sku"], .updateProductRoute⟩,
   ⟨"DELETE", [.lit "products", .param "sku"], .deleteProductRoute⟩,
   ⟨"POST", [.lit "products", .param "sku", .lit "reviews"], .addReviewRoute⟩,
   ⟨"PATCH", [.lit "products", .param "sku", .lit "reviews", .param "review_id"],
     .updateReviewPositionalRoute⟩,
   ⟨"PATCH", [.lit "products", .param "sku", .lit "reviews", .lit "arrayfilters"],
     .patchReviewWithArrayfilterRoute⟩]

/-- Whether one template segment accepts one path segment: a literal matches
itself, a `{param}` matches any segment. -/
def segMatches : Seg → String → Bool
  | .lit s, t => s == t
  | .param _, _ => true

/-- Whether a path template matches a concrete path, segment by segment. -/
def pathMatches : List Seg → List String → Bool
  | [], [] => true
  | p :: ps, t :: ts => segMatches p t && pathMatches ps ts
  | _, _ => false

/-- Starlette request dispatch: scan the registered routes in order and take
the first whose method and path template match. -/
def dispatch (method : String) (path : List String) : Option Handler :=
  (appRoutes.find? (fun r => r.method == method && pathMatches r.path path)).map
    (fun r => r.handler)

-- ================================================================
-- Sample data (concrete instances used by the witnesses)
-- ================================================================

/-- A sample review with review_id r1. -/
def sampleReview1 : Doc :=
  [("review_id", .str "r1"), ("user_id", .str "u1"), ("rating", .num 5),
   ("comment", .null), ("verified", .bool true)]

/-- A second sample review sharing the duplicate review_id r1. -/
def sampleReview2 : Doc :=
  [("review_id", .str "r1"), ("user_id", .str "u2"), ("rating", .num 2),
   ("comment", .str "duplicate id"), ("verified", .bool false)]

/-- A third sample review with review_id r2. -/
def sampleReview3 : Doc :=
  [("review_id", .str "r2"), ("user_id", .str "u3"), ("rating", .num 4),
   ("comment", .null), ("verified", .bool true)]

/-- A sample stored product document with sku A1 and three reviews. -/
def sampleDoc : Doc :=
  [("_id", .num 0), ("sku", .str "A1"), ("name", .str "Widget"),
   ("price", .num 9), ("category", .null),
   ("reviews", .arr [.doc sampleReview1, .doc sampleReview2, .doc sampleReview3])]

/-- A sample store holding just the A1 product. -/
def sampleStore : Store := ⟨[sampleDoc], 1⟩

-- ================================================================
-- Lemmas about documents and field updates
-- ================================================================

theorem getField_setField_self (d : Doc) (k : String) (v : Value) :
    getField (setField d k v) k = some v := by
  induction d with
  | nil => simp [setField, getField]
  | cons kv rest ih =>
    obtain ⟨k1, w⟩ := kv
    by_cases h : k1 = k
    · simp [setField, getField, h]
    · simp [setField, getField, h, ih]

theorem getField_setField_ne (d : Doc) (k k' : String) (v : Value) (h : k' ≠ k) :
    getField (setField d k v) k' = getField d k' := by
  induction d with
  | nil => simp [setField, getField, Ne.symm h]
  | cons kv rest ih =>
    obtain ⟨k1, w⟩ := kv
    by_cases h1 : k1 = k
    · subst h1
      simp [setField, getField, Ne.symm h]
    · simp [setField, getField, h1, ih]

theorem getField_setFields_of_ne (upd : List (String × Value)) (d : Doc) (k : String)
    (h : ∀ kv ∈ upd, kv.1 ≠ k) :
    getField (setFields d upd) k = getField d k := by
  induction upd generalizing d with
  | nil => rfl
  | cons kv rest ih =>
    rw [setFields, ih _ (fun x hx => h x (List.mem_cons_of_mem _ hx))]
    exact getField_setField_ne _ _ _ _ (fun hh => h kv (List.mem_cons_self _ _) hh.symm)

theorem setField_eq_of_getField (d : Doc) (k : String) (v : Value)
    (h : getField d k = some v) : setField d k v = d := by
  induction d with
  | nil => simp [getField] at h
  | cons kv rest ih =>
    obtain ⟨k1, w⟩ := kv
    by_cases h1 : k1 = k
    · subst h1
      simp [getField] at h
      simp [setField, h]
    · simp [getField, h1] at h
      simp [setField, h1, ih h]

theorem setField_of_getField_none (d : Doc) (k : String) (v : Value)
    (h : getField d k = none) : setField d k v = d ++ [(k, v)] := by
  induction d with
  | nil => simp [setField]
  | cons kv rest ih =>
    obtain ⟨k1, w⟩ := kv
    by_cases h1 : k1 = k
    · simp [getField, h1] at h
    · simp [getField, h1] at h
      simp [setField, h1, ih h]

theorem excludeId_eq_self (d : Doc) (h : getField d "_id" = none) : excludeId d = d := by
  induction d with
  | nil => rfl
  | cons kv rest ih =>
    obtain ⟨k1, w⟩ := kv
    by_cases h1 : k1 = "_id"
    · simp [getField, h1] at h
    · simp [getField, h1] at h
      simp [excludeId, List.filter_cons, h1, ih h] at *
      exact ih h

theorem excludeId_append (d e : Doc) : excludeId (d ++ e) = excludeId d ++ excludeId e := by
  simp [excludeId, List.filter_append]

theorem excludeId_isEmpty_false (d : Doc) (k : String) (v : Value)
    (hk : k ≠ "_id") (h : getField d k = some v) : (excludeId d).isEmpty = false := by
  induction d with
  | nil => simp [getField] at h
  | cons kv rest ih =>
    obtain ⟨k1, w⟩ := kv
    by_cases h1 : k1 = k
    · subst h1
      simp [excludeId, List.filter_cons, hk]
    · simp [getField, h1] at h
      by_cases h2 : k1 = "_id"
      · simpa [excludeId, List.filter_cons, h2] using ih h
      · simp [excludeId, List.filter_cons, h2]

theorem getField_some_isEmpty_false (d : Doc) (k : String) (v : Value)
    (h : getField d k = some v) : d.isEmpty = false := by
  cases d with
  | nil => simp [getField] at h
  | cons kv rest => rfl

-- ================================================================
-- Lemmas about the collection scan
-- ================================================================

theorem findOne_eq_none (p : Doc → Bool) (l : List Doc) (h : ∀ d ∈ l, p d = false) :
    findOne p l = none := by
  induction l with
  | nil => rfl
  | cons d ds ih =>
    rw [findOne, if_neg (by simp [h d (List.mem_cons_self _ _)])]
    exact ih (fun x hx => h x (List.mem_cons_of_mem _ hx))

theorem findOne_append_of_none (p : Doc → Bool) (l1 l2 : List Doc)
    (h : ∀ d ∈ l1, p d = false) :
    findOne p (l1 ++ l2) = findOne p l2 := by
  induction l1 with
  | nil => rfl
  | cons d ds ih =>
    rw [List.cons_append, findOne, if_neg (by simp [h d (List.mem_cons_self _ _)])]
    exact ih (fun x hx => h x (List.mem_cons_of_mem _ hx))

theorem findOne_first (p : Doc → Bool) (pre post : List Doc) (d : Doc)
    (hpre : ∀ x ∈ pre, p x = false) (hd : p d = true) :
    findOne p (pre ++ d :: post) = some d := by
  rw [findOne_append_of_none p pre _ hpre, findOne, if_pos hd]

theorem findOne_some_pred (p : Doc → Bool) (l : List Doc) (d : Doc)
    (h : findOne p l = some d) : p d = true := by
  induction l with
  | nil => simp [findOne] at h
  | cons x xs ih =>
    rw [findOne] at h
    by_cases hx : p x = true
    · rw [if_pos hx] at h
      cases h
      exact hx
    · rw [if_neg hx] at h
      exact ih h

theorem updateFirst_of_none (p : Doc → Bool) (f : Doc → Doc) (l : List Doc)
    (h : ∀ d ∈ l, p d = false) :
    updateFirst p f l = (l, 0) := by
  induction l with
  | nil => rfl
  | cons d ds ih =>
    rw [updateFirst, if_neg (by simp [h d (List.mem_cons_self _ _)])]
    simp [ih (fun x hx => h x (List.mem_cons_of_mem _ hx))]

theorem updateFirst_first (p : Doc → Bool) (f : Doc → Doc) (pre post : List Doc) (d : Doc)
    (hpre : ∀ x ∈ pre, p x = false) (hd : p d = true) :
    updateFirst p f (pre ++ d :: post) = (pre ++ f d :: post, 1) := by
  induction pre with
  | nil => simp [updateFirst, hd]
  | cons x xs ih =>
    rw [List.cons_append, updateFirst, if_neg (by simp [hpre x (List.mem_cons_self _ _)])]
    simp [ih (fun y hy => hpre y (List.mem_cons_of_mem _ hy))]

theorem deleteFirst_of_none (p : Doc → Bool) (l : List Doc)
    (h : ∀ d ∈ l, p d = false) :
    deleteFirst p l = (l, 0) := by
  induction l with
  | nil => rfl
  | cons d ds ih =>
    rw [deleteFirst, if_neg (by simp [h d (List.mem_cons_self _ _)])]
    simp [ih (fun x hx => h x (List.mem_cons_of_mem _ hx))]

theorem deleteFirst_first (p : Doc → Bool) (pre post : List Doc) (d : Doc)
    (hpre : ∀ x ∈ pre, p x = false) (hd : p d = true) :
    deleteFirst p (pre ++ d :: post) = (pre ++ post, 1) := by
  induction pre with
  | nil => simp [deleteFirst, hd]
  | cons x xs ih =>
    rw [List.cons_append, deleteFirst, if_neg (by simp [hpre x (List.mem_cons_self _ _)])]
    simp [ih (fun y hy => hpre y (List.mem_cons_of_mem _ hy))]

-- ================================================================
-- Lemmas about query predicates and the review updates
-- ================================================================

theorem qSku_of_getField (d : Doc) (s : String) (h : getField d "sku" = some (.str s)) :
    qSku (.str s) d = true := by
  simp [qSku, matchesEq, h, Value.beq]

theorem qPositional_false_of_qSku_false (sku rid : String) (d : Doc)
    (h : qSku (.str sku) d = false) : qPositional sku rid d = false := by
  simp [qPositional, h]

theorem elemHasField_of_getField (rd : Doc) (k : String) (s : String)
    (h : getField rd k = some (.str s)) :
    elemHasField k (.str s) (.doc rd) = true := by
  simp [elemHasField, matchesEq, h, Value.beq]

theorem getField_applyPush_ne (d : Doc) (k k' : String) (v : Value) (h : k' ≠ k) :
    getField (applyPush d k v) k' = getField d k' := by
  unfold applyPush
  split
  · exact getField_setField_ne _ _ _ _ h
  · exact getField_setField_ne _ _ _ _ h

theorem getField_applyPositionalSet_ne (rid : String) (upd : List (String × Value))
    (d : Doc) (k' : String) (h : k' ≠ "reviews") :
    getField (applyPositionalSet rid upd d) k' = getField d k' := by
  unfold applyPositionalSet
  split
  · exact getField_setField_ne _ _ _ _ h
  · rfl

theorem getField_applyArrayFilterSet_ne (crit upd : List (String × Value))
    (d : Doc) (k' : String) (h : k' ≠ "reviews") :
    getField (applyArrayFilterSet crit upd d) k' = getField d k' := by
  unfold applyArrayFilterSet
  split
  · exact getField_setField_ne _ _ _ _ h
  · rfl

theorem findOne_mem_some (p : Doc → Bool) (l : List Doc) (d : Doc)
    (hd : d ∈ l) (hp : p d = true) : ∃ e, findOne p l = some e ∧ p e = true := by
  induction l with
  | nil => cases hd
  | cons x xs ih =>
    by_cases hx : p x = true
    · exact ⟨x, by rw [findOne, if_pos hx], hx⟩
    · rcases List.mem_cons.mp hd with h | h
      · subst h
        exact absurd hp hx
      · rcases ih h with ⟨e, he, hpe⟩
        refine ⟨e, ?_, hpe⟩
        rw [findOne, if_neg hx]
        exact he

theorem matchesEq_true_getField (d : Doc) (k : String) (v : Value)
    (h : matchesEq d k v = true) : ∃ w, getField d k = some w := by
  unfold matchesEq at h
  cases hg : getField d k with
  | none => rw [hg] at h; cases h
  | some w => exact ⟨w, rfl⟩

theorem updateFirstElem_first (p : Value → Bool) (f : Value → Value)
    (pre post : List Value) (v : Value)
    (hpre : ∀ x ∈ pre, p x = false) (hv : p v = true) :
    updateFirstElem p f (pre ++ v :: post) = pre ++ f v :: post := by
  induction pre with
  | nil => simp [updateFirstElem, hv]
  | cons x xs ih =>
    rw [List.cons_append, updateFirstElem,
      if_neg (by simp [hpre x (List.mem_cons_self _ _)])]
    simp [ih (fun y hy => hpre y (List.mem_cons_of_mem _ hy))]

theorem map_if_false {α : Type} (p : α → Bool) (f : α → α) (l : List α)
    (h : ∀ x ∈ l, p x = false) :
    l.map (fun x => if p x then f x else x) = l := by
  induction l with
  | nil => rfl
  | cons x xs ih =>
    rw [List.map_cons, if_neg (by simp [h x (List.mem_cons_self _ _)])]
    rw [ih (fun y hy => h y (List.mem_cons_of_mem _ hy))]

theorem getField_eraseKey_self (k : String) (body : Doc) :
    getField (eraseKey k body) k = none := by
  induction body with
  | nil => rfl
  | cons kv rest ih =>
    obtain ⟨k1, w⟩ := kv
    by_cases h1 : k1 = k
    · simpa [eraseKey, List.filter_cons, h1] using ih
    · simpa [eraseKey, List.filter_cons, h1, getField, Ne.symm h1] using ih

theorem getField_eraseKey_ne (k j : String) (body : Doc) (h : j ≠ k) :
    getField (eraseKey k body) j = getField body j := by
  induction body with
  | nil => rfl
  | cons kv rest ih =>
    obtain ⟨k1, w⟩ := kv
    by_cases h1 : k1 = k
    · rw [show eraseKey k ((k1, w) :: rest) = eraseKey k rest by
        simp [eraseKey, List.filter_cons, h1]]
      rw [ih, getField, if_neg (by rw [h1]; exact fun hh => h hh.symm)]
    · rw [show eraseKey k ((k1, w) :: rest) = (k1, w) :: eraseKey k rest by
        simp [eraseKey, List.filter_cons, h1]]
      rw [getField, getField]
      by_cases h2 : k1 = j
      · simp [h2]
      · simp [h2, ih]

-- ================================================================
-- Claim theorems
-- ================================================================

/-- C1: contrary to the route table, a PATCH request to
/products/{sku}/reviews/arrayfilters never reaches the array-filter
handler.  The route PATCH /products/{sku}/reviews/{review_id} is declared
first (app.py line 159) and Starlette takes the first matching route, so
for every sku the request is dispatched to update_review_positional with
review_id = "arrayfilters"; the handler declared at line 165 for the
FilterSetUpdate operation is unreachable. -/
theorem c1_arrayfilters_route_shadowed (sku : String) :
    dispatch "PATCH" ["products", sku, "reviews", "arrayfilters"]
      = some .updateReviewPositionalRoute ∧
    Handler.updateReviewPositionalRoute ≠ Handler.patchReviewWithArrayfilterRoute := by
  constructor
  · rfl
  · decide

/-- C4 counterexample: when the duplicate pre-check finds nothing, the
insert is acknowledged (inserted_id present) and the following existence
check cannot locate the document, create_product returns the empty lookup
result as a success — it does not fail with InternalError. -/
theorem c4_counterexample :
    create_product_flow none (some 1) none = .ok none ∧
    (Except.ok none : Except ApiError (Option Doc)) ≠ .error .internalError := by
  constructor
  · rfl
  · intro h
    cases h

/-- C4 amended: create_product raises InternalError exactly when the insert
returns no inserted_id (`if not result.inserted_id`), not when the
follow-up existence check fails; an acknowledged insert whose follow-up
lookup locates nothing yields a success carrying the empty lookup result. -/
theorem c4_internal_error_iff_no_inserted_id (insertedId : Option Nat)
    (postFind : Option Doc) :
    (create_product_flow none insertedId postFind = .error .internalError ↔
      insertedId = none) ∧
    create_product_flow none (some 1) none = .ok none := by
  constructor
  · cases insertedId with
    | none => simp [create_product_flow, truthy]
    | some n => simp [create_product_flow, truthy]
  · rfl

/-- C6: creating a product whose sku already exists in the store fails with
Conflict and leaves the whole store (in particular the existing document)
unchanged. -/
theorem c6_create_conflict_store_unchanged (st : Store) (pd d : Doc) (s : String)
    (hpd : getField pd "sku" = some (.str s))
    (hd : d ∈ st.docs) (hds : getField d "sku" = some (.str s)) :
    create_product st pd = (.error .conflict, st) := by
  obtain ⟨e, he, hpe⟩ := findOne_mem_some _ _ _ hd (qSku_of_getField d s hds)
  obtain ⟨w, hw⟩ := matchesEq_true_getField e "sku" _ hpe
  have htr : truthy (findOne (qSku (.str s)) st.docs) = true := by
    rw [he]
    simp [truthy, getField_some_isEmpty_false e "sku" w hw]
  simp [create_product, hpd, htr]

/-- C6 witness: creating a second product with sku A1 is rejected with
Conflict and the store is returned untouched. -/
theorem c6_create_conflict_store_unchanged_witness :
    getField [("sku", Value.str "A1"), ("name", Value.str "Widget")] "sku"
      = some (.str "A1") ∧
    create_product ⟨[[("sku", Value.str "A1"), ("_id", Value.num 0)]], 1⟩
        [("sku", Value.str "A1"), ("name", Value.str "Widget")]
      = (.error .conflict, ⟨[[("sku", Value.str "A1"), ("_id", Value.num 0)]], 1⟩) :=
  ⟨rfl,
    c6_create_conflict_store_unchanged
      ⟨[[("sku", Value.str "A1"), ("_id", Value.num 0)]], 1⟩
      [("sku", Value.str "A1"), ("name", Value.str "Widget")]
      [("sku", Value.str "A1"), ("_id", Value.num 0)] "A1"
      rfl (by simp) rfl⟩

/-- C8: for a sku matching no document in the store, Get, Update, Delete,
Append (add_review) and PositionalUpdate all fail with NotFound. -/
theorem c8_absent_sku_not_found (st : Store) (sku : String)
    (h : ∀ d ∈ st.docs, qSku (.str sku) d = false) :
    get_product st sku = .error (.notFound sku) ∧
    (∀ ud, (update_product st sku ud).1 = .error (.notFound sku)) ∧
    (delete_product st sku).1 = .error (.notFound sku) ∧
    (∀ rv, (add_review st sku rv).1 = .error (.notFound sku)) ∧
    (∀ rid ud, (update_review_positional st sku rid ud).1 = .error (.notFound sku)) := by
  refine ⟨?_, ?_, ?_, ?_, ?_⟩
  · simp [get_product, findOne_eq_none _ _ h]
  · intro ud
    simp [update_product, updateFirst_of_none _ _ _ h]
  · simp [delete_product, deleteFirst_of_none _ _ h]
  · intro rv
    simp [add_review, updateFirst_of_none _ _ _ h]
  · intro rid ud
    have h2 : ∀ d ∈ st.docs, qPositional sku rid d = false :=
      fun d hd => qPositional_false_of_qSku_false _ _ _ (h d hd)
    simp [update_review_positional, updateFirst_of_none _ _ _ h2]

/-- C8 witness: in the empty store every one of the five operations fails
with NotFound for sku A1. -/
theorem c8_absent_sku_not_found_witness :
    (∀ d ∈ (Store.mk [] 0).docs, qSku (.str "A1") d = false) ∧
    (get_product ⟨[], 0⟩ "A1" = .error (.notFound "A1") ∧
     (∀ ud, (update_product ⟨[], 0⟩ "A1" ud).1 = .error (.notFound "A1")) ∧
     (delete_product ⟨[], 0⟩ "A1").1 = .error (.notFound "A1") ∧
     (∀ rv, (add_review ⟨[], 0⟩ "A1" rv).1 = .error (.notFound "A1")) ∧
     (∀ rid ud, (update_review_positional ⟨[], 0⟩ "A1" rid ud).1
        = .error (.notFound "A1"))) :=
  ⟨by simp, c8_absent_sku_not_found ⟨[], 0⟩ "A1" (by simp)⟩

/-- C5: Update applies a field-level merge to the product matching the sku:
only the provided fields are replaced, every field not named in the update
(such as name, category and reviews when only price is given) keeps its
prior value, and the updated document is returned; when no document matches
the sku the call fails with NotFound. -/
theorem c5_update_partial_merge (st : Store) (sku : String)
    (ud : List (String × Value)) (pre post : List Doc) (d : Doc)
    (hdocs : st.docs = pre ++ d :: post)
    (hpre : ∀ x ∈ pre, qSku (.str sku) x = false)
    (hd : getField d "sku" = some (.str sku))
    (hud : ∀ kv ∈ ud, kv.1 ≠ "sku") :
    (update_product st sku ud).1 = .ok (some (excludeId (setFields d ud))) ∧
    (update_product st sku ud).2.docs = pre ++ setFields d ud :: post ∧
    (∀ k, (∀ kv ∈ ud, kv.1 ≠ k) → getField (setFields d ud) k = getField d k) ∧
    (∀ st2 : Store, (∀ x ∈ st2.docs, qSku (.str sku) x = false) →
      (update_product st2 sku ud).1 = .error (.notFound sku)) := by
  have hq : qSku (.str sku) d = true := qSku_of_getField d sku hd
  have hupd : updateFirst (qSku (.str sku)) (fun x => setFields x ud) st.docs
      = (pre ++ setFields d ud :: post, 1) := by
    rw [hdocs]
    exact updateFirst_first _ _ _ _ _ hpre hq
  have hsf : getField (setFields d ud) "sku" = some (.str sku) := by
    rw [getField_setFields_of_ne ud d "sku" hud, hd]
  have hfind : findOne (qSku (.str sku)) (pre ++ setFields d ud :: post)
      = some (setFields d ud) :=
    findOne_first _ _ _ _ hpre (qSku_of_getField _ _ hsf)
  refine ⟨?_, ?_, ?_, ?_⟩
  · simp [update_product, hupd, hfind]
  · simp [update_product, hupd]
  · exact fun k hk => getField_setFields_of_ne ud d k hk
  · intro st2 h2
    simp [update_product, updateFirst_of_none _ _ _ h2]

/-- C5 witness: updating only the price of the A1 product succeeds, returns
the merged document, and leaves name, category and reviews at their prior
values. -/
theorem c5_update_partial_merge_witness :
    (getField sampleDoc "sku" = some (.str "A1") ∧
     (∀ kv ∈ [("price", Value.num 19)], kv.1 ≠ "sku")) ∧
    ((update_product sampleStore "A1" [("price", Value.num 19)]).1
        = .ok (some (excludeId (setFields sampleDoc [("price", Value.num 19)]))) ∧
     (update_product sampleStore "A1" [("price", Value.num 19)]).2.docs
        = [] ++ setFields sampleDoc [("price", Value.num 19)] :: [] ∧
     (∀ k, (∀ kv ∈ [("price", Value.num 19)], kv.1 ≠ k) →
        getField (setFields sampleDoc [("price", Value.num 19)]) k = getField sampleDoc k) ∧
     (∀ st2 : Store, (∀ x ∈ st2.docs, qSku (.str "A1") x = false) →
        (update_product st2 "A1" [("price", Value.num 19)]).1
          = .error (.notFound "A1"))) :=
  ⟨⟨rfl, by simp⟩,
    c5_update_partial_merge sampleStore "A1" [("price", Value.num 19)] [] []
      sampleDoc rfl (by simp) rfl (by simp)⟩

/-- C7: Append pushes the new review onto the end of the product's review
sequence — the existing reviews are kept, in order, with the new review
last and no de-duplication by review_id — and fails with NotFound when the
product does not exist. -/
theorem c7_append_review (st : Store) (sku : String) (rv : Doc)
    (pre post : List Doc) (d : Doc) (rs : List Value)
    (hdocs : st.docs = pre ++ d :: post)
    (hpre : ∀ x ∈ pre, qSku (.str sku) x = false)
    (hd : getField d "sku" = some (.str sku))
    (hrs : getField d "reviews" = some (.arr rs)) :
    (add_review st sku rv).2.docs
      = pre ++ setField d "reviews" (.arr (rs ++ [.doc rv])) :: post ∧
    getField (setField d "reviews" (.arr (rs ++ [.doc rv]))) "reviews"
      = some (.arr (rs ++ [.doc rv])) ∧
    (add_review st sku rv).1
      = .ok (some (excludeId (setField d "reviews" (.arr (rs ++ [.doc rv]))))) ∧
    (∀ st2 : Store, (∀ x ∈ st2.docs, qSku (.str sku) x = false) →
      (add_review st2 sku rv).1 = .error (.notFound sku)) := by
  have hq : qSku (.str sku) d = true := qSku_of_getField d sku hd
  have happ : applyPush d "reviews" (.doc rv)
      = setField d "reviews" (.arr (rs ++ [.doc rv])) := by
    simp [applyPush, hrs]
  have hupd : updateFirst (qSku (.str sku)) (fun x => applyPush x "reviews" (.doc rv)) st.docs
      = (pre ++ setField d "reviews" (.arr (rs ++ [.doc rv])) :: post, 1) := by
    rw [hdocs, updateFirst_first _ _ _ _ _ hpre hq, happ]
  have hsf : getField (setField d "reviews" (.arr (rs ++ [.doc rv]))) "sku"
      = some (.str sku) := by
    rw [getField_setField_ne d "reviews" "sku" _ (by decide), hd]
  have hfind : findOne (qSku (.str sku))
      (pre ++ setField d "reviews" (.arr (rs ++ [.doc rv])) :: post)
      = some (setField d "reviews" (.arr (rs ++ [.doc rv]))) :=
    findOne_first _ _ _ _ hpre (qSku_of_getField _ _ hsf)
  refine ⟨?_, getField_setField_self d "reviews" _, ?_, ?_⟩
  · simp [add_review, hupd]
  · simp [add_review, hupd, hfind]
  · intro st2 h2
    simp [add_review, updateFirst_of_none _ _ _ h2]

/-- C7 witness: appending a fresh review to the A1 product places it after
the three existing reviews, which stay in order. -/
theorem c7_append_review_witness :
    (getField sampleDoc "sku" = some (.str "A1") ∧
     getField sampleDoc "reviews"
       = some (.arr [.doc sampleReview1, .doc sampleReview2, .doc sampleReview3])) ∧
    ((add_review sampleStore "A1" sampleReview3).2.docs
      = [] ++ setField sampleDoc "reviews"
          (.arr ([.doc sampleReview1, .doc sampleReview2, .doc sampleReview3]
            ++ [.doc sampleReview3])) :: [] ∧
     getField (setField sampleDoc "reviews"
          (.arr ([.doc sampleReview1, .doc sampleReview2, .doc sampleReview3]
            ++ [.doc sampleReview3]))) "reviews"
       = some (.arr ([.doc sampleReview1, .doc sampleReview2, .doc sampleReview3]
            ++ [.doc sampleReview3])) ∧
     (add_review sampleStore "A1" sampleReview3).1
       = .ok (some (excludeId (setField sampleDoc "reviews"
          (.arr ([.doc sampleReview1, .doc sampleReview2, .doc sampleReview3]
            ++ [.doc sampleReview3]))))) ∧
     (∀ st2 : Store, (∀ x ∈ st2.docs, qSku (.str "A1") x = false) →
        (add_review st2 "A1" sampleReview3).1 = .error (.notFound "A1"))) :=
  ⟨⟨rfl, rfl⟩,
    c7_append_review sampleStore "A1" sampleReview3 [] [] sampleDoc
      [.doc sampleReview1, .doc sampleReview2, .doc sampleReview3]
      rfl (by simp) rfl rfl⟩

/-- C9: creating a product with a fresh sku and immediately getting it by
that sku returns exactly the created field values — both the create
response and the following Get; the driver-stamped storage identifier is
excluded by the projection. -/
theorem c9_create_get_roundtrip (st : Store) (pd : Doc) (s : String)
    (hpd : getField pd "sku" = some (.str s))
    (hid : getField pd "_id" = none)
    (habs : ∀ d ∈ st.docs, qSku (.str s) d = false) :
    (create_product st pd).1 = .ok (some pd) ∧
    get_product (create_product st pd).2 s = .ok pd := by
  have hnone := findOne_eq_none (qSku (.str s)) st.docs habs
  have hins : setField pd "_id" (.num st.nextId) = pd ++ [("_id", .num st.nextId)] :=
    setField_of_getField_none pd "_id" _ hid
  have hsku : getField (setField pd "_id" (.num st.nextId)) "sku" = some (.str s) := by
    rw [getField_setField_ne pd "_id" "sku" _ (by decide), hpd]
  have hq : qSku (.str s) (setField pd "_id" (.num st.nextId)) = true :=
    qSku_of_getField _ _ hsku
  have hfind : findOne (qSku (.str s)) (st.docs ++ [setField pd "_id" (.num st.nextId)])
      = some (setField pd "_id" (.num st.nextId)) := by
    rw [findOne_append_of_none _ _ _ habs, findOne, if_pos hq]
  have hex : excludeId (setField pd "_id" (.num st.nextId)) = pd := by
    rw [hins, excludeId_append, excludeId_eq_self pd hid]
    simp [excludeId]
  constructor
  · simp [create_product, hpd, hnone, truthy, hfind, hex]
  · simp [get_product, create_product, hpd, hnone, truthy, hfind, hex,
      getField_some_isEmpty_false pd "sku" _ hpd]

/-- C9 witness: creating a fresh A2 product in the sample store and getting
it back returns exactly the created fields. -/
theorem c9_create_get_roundtrip_witness :
    (getField [("sku", Value.str "A2"), ("name", Value.str "Gadget"),
        ("price", Value.num 5), ("category", Value.null),
        ("reviews", Value.arr [])] "sku" = some (.str "A2") ∧
     (∀ d ∈ sampleStore.docs, qSku (.str "A2") d = false)) ∧
    ((create_product sampleStore
        [("sku", Value.str "A2"), ("name", Value.str "Gadget"),
         ("price", Value.num 5), ("category", Value.null),
         ("reviews", Value.arr [])]).1
      = .ok (some [("sku", Value.str "A2"), ("name", Value.str "Gadget"),
         ("price", Value.num 5), ("category", Value.null),
         ("reviews", Value.arr [])]) ∧
     get_product (create_product sampleStore
        [("sku", Value.str "A2"), ("name", Value.str "Gadget"),
         ("price", Value.num 5), ("category", Value.null),
         ("reviews", Value.arr [])]).2 "A2"
      = .ok [("sku", Value.str "A2"), ("name", Value.str "Gadget"),
         ("price", Value.num 5), ("category", Value.null),
         ("reviews", Value.arr [])]) :=
  ⟨⟨rfl, by simp [sampleStore, sampleDoc, qSku, matchesEq, getField, Value.beq]⟩,
    c9_create_get_roundtrip sampleStore
      [("sku", Value.str "A2"), ("name", Value.str "Gadget"),
       ("price", Value.num 5), ("category", Value.null),
       ("reviews", Value.arr [])] "A2" rfl rfl
      (by simp [sampleStore, sampleDoc, qSku, matchesEq, getField, Value.beq])⟩

/-- C3: PositionalUpdate merges the partial fields into only the first
review whose review_id matches — the reviews before and after it are kept
untouched, even when duplicate review_ids exist — and it fails with the
same NotFound both when the product is absent and when the product exists
but holds no review with that id (in either case the compound query matches
no document), so the two failures are indistinguishable to the caller. -/
theorem c3_positional_update_first_only (st : Store) (sku rid : String)
    (ud : List (String × Value)) (pre post : List Doc) (d : Doc)
    (rpre rpost : List Value) (rd : Doc)
    (hdocs : st.docs = pre ++ d :: post)
    (hpre : ∀ x ∈ pre, qSku (.str sku) x = false)
    (hd : getField d "sku" = some (.str sku))
    (hrs : getField d "reviews" = some (.arr (rpre ++ .doc rd :: rpost)))
    (hrpre : ∀ v ∈ rpre, elemHasField "review_id" (.str rid) v = false)
    (hrd : getField rd "review_id" = some (.str rid)) :
    (update_review_positional st sku rid ud).2.docs
      = pre ++ setField d "reviews"
          (.arr (rpre ++ .doc (setFields rd ud) :: rpost)) :: post ∧
    (update_review_positional st sku rid ud).1
      = .ok (some (excludeId (setField d "reviews"
          (.arr (rpre ++ .doc (setFields rd ud) :: rpost))))) ∧
    (∀ st2 : Store, (∀ x ∈ st2.docs, qPositional sku rid x = false) →
      (update_review_positional st2 sku rid ud).1 = .error (.notFound sku)) ∧
    (∀ d2 : Doc, ∀ rs2 : List Value, getField d2 "reviews" = some (.arr rs2) →
      (∀ v ∈ rs2, elemHasField "review_id" (.str rid) v = false) →
      qPositional sku rid d2 = false) := by
  have hel : elemHasField "review_id" (.str rid) (.doc rd) = true :=
    elemHasField_of_getField rd "review_id" rid hrd
  have hq : qPositional sku rid d = true := by
    simp [qPositional, qSku_of_getField d sku hd, arrayFieldHas, hrs,
      List.any_append, hel]
  have hpre2 : ∀ x ∈ pre, qPositional sku rid x = false :=
    fun x hx => qPositional_false_of_qSku_false _ _ _ (hpre x hx)
  have happ : applyPositionalSet rid ud d
      = setField d "reviews" (.arr (rpre ++ .doc (setFields rd ud) :: rpost)) := by
    simp [applyPositionalSet, hrs,
      updateFirstElem_first _ _ rpre rpost _ hrpre hel, setDocFields]
  have hupd : updateFirst (qPositional sku rid) (applyPositionalSet rid ud) st.docs
      = (pre ++ setField d "reviews"
          (.arr (rpre ++ .doc (setFields rd ud) :: rpost)) :: post, 1) := by
    rw [hdocs, updateFirst_first _ _ _ _ _ hpre2 hq, happ]
  have hsf : getField (setField d "reviews"
      (.arr (rpre ++ .doc (setFields rd ud) :: rpost))) "sku" = some (.str sku) := by
    rw [getField_setField_ne d "reviews" "sku" _ (by decide), hd]
  have hfind : findOne (qSku (.str sku))
      (pre ++ setField d "reviews"
        (.arr (rpre ++ .doc (setFields rd ud) :: rpost)) :: post)
      = some (setField d "reviews" (.arr (rpre ++ .doc (setFields rd ud) :: rpost))) :=
    findOne_first _ _ _ _ hpre (qSku_of_getField _ _ hsf)
  refine ⟨?_, ?_, ?_, ?_⟩
  · simp [update_review_positional, hupd]
  · simp [update_review_positional, hupd, hfind]
  · intro st2 h2
    simp [update_review_positional, updateFirst_of_none _ _ _ h2]
  · intro d2 rs2 hg2 hall
    have hany : rs2.any (elemHasField "review_id" (.str rid)) = false :=
      List.any_eq_false.mpr (fun x hx => by simp [hall x hx])
    simp [qPositional, arrayFieldHas, hg2, hany]

/-- C3 witness: updating review r1 of the A1 product touches only the first
of the two reviews carrying the duplicate id r1; the second stays as it
was, and absent-product and absent-review both give the same NotFound. -/
theorem c3_positional_update_first_only_witness :
    (getField sampleDoc "reviews"
      = some (.arr ([] ++ .doc sampleReview1
          :: [.doc sampleReview2, .doc sampleReview3])) ∧
     getField sampleReview1 "review_id" = some (.str "r1")) ∧
    ((update_review_positional sampleStore "A1" "r1" [("rating", Value.num 3)]).2.docs
      = [] ++ setField sampleDoc "reviews"
          (.arr ([] ++ .doc (setFields sampleReview1 [("rating", Value.num 3)])
            :: [.doc sampleReview2, .doc sampleReview3])) :: [] ∧
     (update_review_positional sampleStore "A1" "r1" [("rating", Value.num 3)]).1
      = .ok (some (excludeId (setField sampleDoc "reviews"
          (.arr ([] ++ .doc (setFields sampleReview1 [("rating", Value.num 3)])
            :: [.doc sampleReview2, .doc sampleReview3]))))) ∧
     (∀ st2 : Store, (∀ x ∈ st2.docs, qPositional "A1" "r1" x = false) →
        (update_review_positional st2 "A1" "r1" [("rating", Value.num 3)]).1
          = .error (.notFound "A1")) ∧
     (∀ d2 : Doc, ∀ rs2 : List Value, getField d2 "reviews" = some (.arr rs2) →
        (∀ v ∈ rs2, elemHasField "review_id" (.str "r1") v = false) →
        qPositional "A1" "r1" d2 = false)) :=
  ⟨⟨rfl, rfl⟩,
    c3_positional_update_first_only sampleStore "A1" "r1"
      [("rating", Value.num 3)] [] [] sampleDoc
      [] [.doc sampleReview2, .doc sampleReview3] sampleReview1
      rfl (by simp) rfl rfl (by simp) rfl⟩

/-- C2: FilterSetUpdate sets the new fields on every review of the product
whose fields all equal the criteria values (and only those); when the
product exists but zero reviews match, the call succeeds and the store is
unchanged (a no-op, not NotFound); it fails with NotFound exactly when no
product with the sku exists. -/
theorem c2_filter_set_update_all_matching (st : Store) (sku : String)
    (crit nd : List (String × Value)) (pre post : List Doc) (d : Doc)
    (rs : List Value)
    (hdocs : st.docs = pre ++ d :: post)
    (hpre : ∀ x ∈ pre, qSku (.str sku) x = false)
    (hd : getField d "sku" = some (.str sku))
    (hrs : getField d "reviews" = some (.arr rs)) :
    (update_review_array_filters st sku crit nd).2.docs
      = pre ++ setField d "reviews"
          (.arr (rs.map (fun v => if elemMatchesAll crit v then setDocFields nd v else v)))
        :: post ∧
    (update_review_array_filters st sku crit nd).1
      = .ok (some (excludeId (setField d "reviews"
          (.arr (rs.map (fun v => if elemMatchesAll crit v then setDocFields nd v else v)))))) ∧
    ((∀ v ∈ rs, elemMatchesAll crit v = false) →
      (update_review_array_filters st sku crit nd).2.docs = st.docs ∧
      (update_review_array_filters st sku crit nd).1 = .ok (some (excludeId d))) ∧
    (∀ st2 : Store, (∀ x ∈ st2.docs, qSku (.str sku) x = false) →
      (update_review_array_filters st2 sku crit nd).1 = .error (.notFound sku)) := by
  have hq : qSku (.str sku) d = true := qSku_of_getField d sku hd
  have happ : applyArrayFilterSet crit nd d
      = setField d "reviews"
          (.arr (rs.map (fun v => if elemMatchesAll crit v then setDocFields nd v else v))) := by
    simp [applyArrayFilterSet, hrs]
  have hupd : updateFirst (qSku (.str sku)) (applyArrayFilterSet crit nd) st.docs
      = (pre ++ setField d "reviews"
          (.arr (rs.map (fun v => if elemMatchesAll crit v then setDocFields nd v else v)))
        :: post, 1) := by
    rw [hdocs, updateFirst_first _ _ _ _ _ hpre hq, happ]
  have hsf : getField (setField d "reviews"
      (.arr (rs.map (fun v => if elemMatchesAll crit v then setDocFields nd v else v))))
      "sku" = some (.str sku) := by
    rw [getField_setField_ne d "reviews" "sku" _ (by decide), hd]
  have hfind : findOne (qSku (.str sku))
      (pre ++ setField d "reviews"
        (.arr (rs.map (fun v => if elemMatchesAll crit v then setDocFields nd v else v)))
        :: post)
      = some (setField d "reviews"
          (.arr (rs.map (fun v => if elemMatchesAll crit v then setDocFields nd v else v)))) :=
    findOne_first _ _ _ _ hpre (qSku_of_getField _ _ hsf)
  have h1 : (update_review_array_filters st sku crit nd).2.docs
      = pre ++ setField d "reviews"
          (.arr (rs.map (fun v => if elemMatchesAll crit v then setDocFields nd v else v)))
        :: post := by
    simp [update_review_array_filters, hupd]
  have h2 : (update_review_array_filters st sku crit nd).1
      = .ok (some (excludeId (setField d "reviews"
          (.arr (rs.map (fun v => if elemMatchesAll crit v then setDocFields nd v else v)))))) := by
    simp [update_review_array_filters, hupd, hfind]
  refine ⟨h1, h2, ?_, ?_⟩
  · intro hno
    have hmap : rs.map (fun v => if elemMatchesAll crit v then setDocFields nd v else v)
        = rs := map_if_false _ _ _ hno
    have hself : setField d "reviews" (.arr rs) = d := setField_eq_of_getField d _ _ hrs
    constructor
    · rw [h1, hmap, hself, hdocs]
    · rw [h2, hmap, hself]
  · intro st2 h2'
    simp [update_review_array_filters, updateFirst_of_none _ _ _ h2']

/-- C2 witness: with criteria matching the two verified reviews of the A1
product, both are updated at once by the same new field values; and the
absent-product case is NotFound. -/
theorem c2_filter_set_update_all_matching_witness :
    (getField sampleDoc "sku" = some (.str "A1") ∧
     getField sampleDoc "reviews"
      = some (.arr [.doc sampleReview1, .doc sampleReview2, .doc sampleReview3])) ∧
    ((update_review_array_filters sampleStore "A1"
        [("verified", Value.bool true)] [("rating", Value.num 3)]).2.docs
      = [] ++ setField sampleDoc "reviews"
          (.arr ([Value.doc sampleReview1, Value.doc sampleReview2,
              Value.doc sampleReview3].map
            (fun v => if elemMatchesAll [("verified", Value.bool true)] v
              then setDocFields [("rating", Value.num 3)] v else v))) :: [] ∧
     (update_review_array_filters sampleStore "A1"
        [("verified", Value.bool true)] [("rating", Value.num 3)]).1
      = .ok (some (excludeId (setField sampleDoc "reviews"
          (.arr ([Value.doc sampleReview1, Value.doc sampleReview2,
              Value.doc sampleReview3].map
            (fun v => if elemMatchesAll [("verified", Value.bool true)] v
              then setDocFields [("rating", Value.num 3)] v else v)))))) ∧
     ((∀ v ∈ [Value.doc sampleReview1, Value.doc sampleReview2, Value.doc sampleReview3],
        elemMatchesAll [("verified", Value.bool true)] v = false) →
      (update_review_array_filters sampleStore "A1"
        [("verified", Value.bool true)] [("rating", Value.num 3)]).2.docs
        = sampleStore.docs ∧
      (update_review_array_filters sampleStore "A1"
        [("verified", Value.bool true)] [("rating", Value.num 3)]).1
        = .ok (some (excludeId sampleDoc))) ∧
     (∀ st2 : Store, (∀ x ∈ st2.docs, qSku (.str "A1") x = false) →
        (update_review_array_filters st2 "A1"
          [("verified", Value.bool true)] [("rating", Value.num 3)]).1
          = .error (.notFound "A1"))) :=
  ⟨⟨rfl, rfl⟩,
    c2_filter_set_update_all_matching sampleStore "A1"
      [("verified", Value.bool true)] [("rating", Value.num 3)] [] [] sampleDoc
      [.doc sampleReview1, .doc sampleReview2, .doc sampleReview3]
      rfl (by simp) rfl rfl⟩

/-- C10: in the PATCH /products/{sku} endpoint a body field supplied as
null is treated exactly like an absent field by validation; the update
dictionary built on app.py line 138 contains no null value and omits the
null-supplied field, so Update can never set name, price or category to
null; and after the merge the null-supplied field keeps its prior stored
value. -/
theorem c10_null_fields_discarded (body : Doc) (k : String) (st : Store)
    (sku : String) (pre post : List Doc) (d : Doc) (b : ProductUpdate)
    (hk : k = "name" ∨ k = "price" ∨ k = "category")
    (hnull : getField body k = some .null)
    (hb : parseProductUpdate body = some b)
    (hdocs : st.docs = pre ++ d :: post)
    (hpre : ∀ x ∈ pre, qSku (.str sku) x = false)
    (hd : getField d "sku" = some (.str sku)) :
    parseProductUpdate body = parseProductUpdate (eraseKey k body) ∧
    (∀ b2 : ProductUpdate, ∀ kv ∈ appUpdateData b2, kv.2.isNull = false) ∧
    (∀ kv ∈ appUpdateData b, kv.1 ≠ k) ∧
    (app_update_product st sku b).2.docs
      = pre ++ setFields d (appUpdateData b) :: post ∧
    getField (setFields d (appUpdateData b)) k = getField d k := by
  obtain ⟨n, hn⟩ : ∃ n, parseOptStr body "name" = some n := by
    cases hx : parseOptStr body "name" with
    | none => simp [parseProductUpdate, hx] at hb
    | some n => exact ⟨n, rfl⟩
  obtain ⟨p, hp⟩ : ∃ p, parseOptPrice body = some p := by
    cases hx : parseOptPrice body with
    | none => simp [parseProductUpdate, hn, hx] at hb
    | some p => exact ⟨p, rfl⟩
  obtain ⟨c, hc⟩ : ∃ c, parseOptStr body "category" = some c := by
    cases hx : parseOptStr body "category" with
    | none => simp [parseProductUpdate, hn, hp, hx] at hb
    | some c => exact ⟨c, rfl⟩
  have hbeq : b = ProductUpdate.mk n p c := by
    simp [parseProductUpdate, hn, hp, hc] at hb
    exact hb.symm
  subst hbeq
  have partA : parseProductUpdate body = parseProductUpdate (eraseKey k body) := by
    rcases hk with hk | hk | hk <;> subst hk
    · have e1 : parseOptStr body "name" = some none := by
        simp [parseOptStr, hnull]
      have e2 : parseOptStr (eraseKey "name" body) "name" = some none := by
        simp [parseOptStr, getField_eraseKey_self]
      have e3 : parseOptPrice (eraseKey "name" body) = parseOptPrice body := by
        unfold parseOptPrice
        rw [getField_eraseKey_ne "name" "price" body (by decide)]
      have e4 : parseOptStr (eraseKey "name" body) "category"
          = parseOptStr body "category" := by
        unfold parseOptStr
        rw [getField_eraseKey_ne "name" "category" body (by decide)]
      simp [parseProductUpdate, e1, e2, e3, e4]
    · have e1 : parseOptPrice body = some none := by
        simp [parseOptPrice, hnull]
      have e2 : parseOptPrice (eraseKey "price" body) = some none := by
        simp [parseOptPrice, getField_eraseKey_self]
      have e3 : parseOptStr (eraseKey "price" body) "name"
          = parseOptStr body "name" := by
        unfold parseOptStr
        rw [getField_eraseKey_ne "price" "name" body (by decide)]
      have e4 : parseOptStr (eraseKey "price" body) "category"
          = parseOptStr body "category" := by
        unfold parseOptStr
        rw [getField_eraseKey_ne "price" "category" body (by decide)]
      simp [parseProductUpdate, e1, e2, e3, e4]
    · have e1 : parseOptStr body "category" = some none := by
        simp [parseOptStr, hnull]
      have e2 : parseOptStr (eraseKey "category" body) "category" = some none := by
        simp [parseOptStr, getField_eraseKey_self]
      have e3 : parseOptStr (eraseKey "category" body) "name"
          = parseOptStr body "name" := by
        unfold parseOptStr
        rw [getField_eraseKey_ne "category" "name" body (by decide)]
      have e4 : parseOptPrice (eraseKey "category" body) = parseOptPrice body := by
        unfold parseOptPrice
        rw [getField_eraseKey_ne "category" "price" body (by decide)]
      simp [parseProductUpdate, e1, e2, e3, e4]
  have partB : ∀ b2 : ProductUpdate, ∀ kv ∈ appUpdateData b2, kv.2.isNull = false := by
    intro b2 kv hkv
    have hpred := List.of_mem_filter hkv
    simpa using hpred
  have partC : ∀ kv ∈ appUpdateData (ProductUpdate.mk n p c), kv.1 ≠ k := by
    rcases hk with hk | hk | hk <;> subst hk
    · have hname : n = none := by
        simp [parseOptStr, hnull] at hn
        exact hn.symm
      subst hname
      intro kv hkv
      have hpred := List.of_mem_filter hkv
      have hmem := List.mem_of_mem_filter hkv
      simp [appUpdateData, ProductUpdate.model_dump] at hmem
      rcases hmem with h | h | h
      · rw [h] at hpred
        simp [Value.isNull] at hpred
      · rw [h]
        simp
      · rw [h]
        simp
    · have hprice : p = none := by
        simp [parseOptPrice, hnull] at hp
        exact hp.symm
      subst hprice
      intro kv hkv
      have hpred := List.of_mem_filter hkv
      have hmem := List.mem_of_mem_filter hkv
      simp [appUpdateData, ProductUpdate.model_dump] at hmem
      rcases hmem with h | h | h
      · rw [h]
        simp
      · rw [h] at hpred
        simp [Value.isNull] at hpred
      · rw [h]
        simp
    · have hcat : c = none := by
        simp [parseOptStr, hnull] at hc
        exact hc.symm
      subst hcat
      intro kv hkv
      have hpred := List.of_mem_filter hkv
      have hmem := List.mem_of_mem_filter hkv
      simp [appUpdateData, ProductUpdate.model_dump] at hmem
      rcases hmem with h | h | h
      · rw [h]
        simp
      · rw [h]
        simp
      · rw [h] at hpred
        simp [Value.isNull] at hpred
  have hq : qSku (.str sku) d = true := qSku_of_getField d sku hd
  have hupd : updateFirst (qSku (.str sku))
      (fun x => setFields x (appUpdateData (ProductUpdate.mk n p c))) st.docs
      = (pre ++ setFields d (appUpdateData (ProductUpdate.mk n p c)) :: post, 1) := by
    rw [hdocs]
    exact updateFirst_first _ _ _ _ _ hpre hq
  have partD : (app_update_product st sku (ProductUpdate.mk n p c)).2.docs
      = pre ++ setFields d (appUpdateData (ProductUpdate.mk n p c)) :: post := by
    simp [app_update_product, update_product, hupd]
  exact ⟨partA, partB, partC, partD, getField_setFields_of_ne _ _ _ partC⟩

/-- C10 witness: a PATCH body carrying name NewName and an explicit null
price validates to an update touching only name; the null price is
discarded, the body equals its absent-price variant, and the stored price
keeps its prior value. -/
theorem c10_null_fields_discarded_witness :
    (getField [("name", Value.str "NewName"), ("price", Value.null)] "price"
        = some .null ∧
     parseProductUpdate [("name", Value.str "NewName"), ("price", Value.null)]
        = some (ProductUpdate.mk (some "NewName") none none)) ∧
    (parseProductUpdate [("name", Value.str "NewName"), ("price", Value.null)]
        = parseProductUpdate
            (eraseKey "price" [("name", Value.str "NewName"), ("price", Value.null)]) ∧
     (∀ b2 : ProductUpdate, ∀ kv ∈ appUpdateData b2, kv.2.isNull = false) ∧
     (∀ kv ∈ appUpdateData (ProductUpdate.mk (some "NewName") none none),
        kv.1 ≠ "price") ∧
     (app_update_product sampleStore "A1"
        (ProductUpdate.mk (some "NewName") none none)).2.docs
       = [] ++ setFields sampleDoc
           (appUpdateData (ProductUpdate.mk (some "NewName") none none)) :: [] ∧
     getField (setFields sampleDoc
        (appUpdateData (ProductUpdate.mk (some "NewName") none none))) "price"
       = getField sampleDoc "price") :=
  ⟨⟨rfl, rfl⟩,
    c10_null_fields_discarded
      [("name", Value.str "NewName"), ("price", Value.null)] "price"
      sampleStore "A1" [] [] sampleDoc
      (ProductUpdate.mk (some "NewName") none none)
      (by decide) rfl rfl rfl (by simp) rfl⟩

end MongoCatalog
